import Mathlib

/-
Verification development for a small WebGL2 helper library.

The repository has two near-identical helper modules (src/glHelp.js exporting
`GLHelp`, and an unnamed utility module exporting `glHelp` that additionally
provides frame drivers `render` / `renderMultipleShapes`), plus a demo
`main.js` that builds a 2x2 grid and renders it in a loop.

Shallow embedding: every helper is a Lean function from an explicit graphics
state (`GLState`) and its arguments to a new state, a trace of issued graphics
calls (`List GLCall`), and a result.  Environment-determined outcomes (DOM
lookup, shader compile success, link success, info logs) are fields of `GLEnv`.
Program attribute/uniform name resolution is a lookup table on `Program`
(matching `gl.getAttribLocation` returning -1 when absent and
`gl.getUniformLocation` returning null when absent).
-/

/- WebGL enum constants, with their numeric GLenum values. -/

def VERTEX_SHADER : Nat := 35633

def FRAGMENT_SHADER : Nat := 35632

def ARRAY_BUFFER : Nat := 34962

def ELEMENT_ARRAY_BUFFER : Nat := 34963

def STATIC_DRAW : Nat := 35044

def GL_FLOAT : Nat := 5126

def UNSIGNED_SHORT : Nat := 5123

def TRIANGLES : Nat := 4

def COLOR_BUFFER_BIT : Nat := 16384

def DEPTH_BUFFER_BIT : Nat := 256

/- Data uploaded to a buffer: Float32Array (rationals stand in for the exactly
representable demo values) or Uint16Array. -/

inductive BufData where
  | f32 (xs : List Rat)
  | u16 (xs : List Nat)
deriving DecidableEq

/- A uniform value: a number or a typed array, passed through unchecked just
as the source passes `value`. -/

inductive UniformValue where
  | num (x : Rat)
  | vec (xs : List Rat)
deriving DecidableEq

/- One issued graphics (or host) call, recorded in program order. -/

inductive GLCall where
  | createShader (ty : Nat)
  | shaderSource (shader : Nat) (src : String)
  | compileShaderCall (shader : Nat)
  | consoleError (msg : String)
  | deleteShader (shader : Nat)
  | createProgramCall
  | attachShader (program shader : Nat)
  | linkProgram (program : Nat)
  | createBufferCall
  | bindBuffer (target : Nat) (buffer : Option Nat)
  | bufferData (target : Nat) (data : BufData) (usage : Nat)
  | getAttribLocationCall (program : Nat) (name : String)
  | vertexAttribPointer (location : Int) (size ty : Nat) (normalized : Bool) (stride off : Nat)
  | enableVertexAttribArray (location : Int)
  | getUniformLocationCall (program : Nat) (name : String)
  | uniform1f (loc : Option Nat) (v : UniformValue)
  | uniform2fv (loc : Option Nat) (v : UniformValue)
  | uniform3fv (loc : Option Nat) (v : UniformValue)
  | uniform4fv (loc : Option Nat) (v : UniformValue)
  | uniformMatrix4fv (loc : Option Nat) (transpose : Bool) (v : UniformValue)
  | clearColor (r g b a : Rat)
  | clearCall (mask : Nat)
  | useProgram (program : Nat)
  | drawElements (mode count ty off : Nat)
  | drawArrays (mode first count : Nat)
  | setCanvasWidth (w : Nat)
  | setCanvasHeight (h : Nat)
  | viewport (x y w h : Nat)
  | requestAnimationFrame
deriving DecidableEq

/- A canvas element: backing-store size (`width`, `height`), CSS display size
(`clientWidth`, `clientHeight`), and whether `getContext("webgl2")` succeeds
on it. -/

structure Canvas where
  width : Nat
  height : Nat
  clientWidth : Nat
  clientHeight : Nat
  webgl2Capable : Bool
deriving DecidableEq

/- The mutable graphics state the helpers touch: the canvas, the two buffer
binding points, and a fresh-id counter for created GL objects. -/

structure GLState where
  canvas : Canvas
  arrayBufferBinding : Option Nat
  elementArrayBufferBinding : Option Nat
  nextId : Nat
deriving DecidableEq

/- A linked program: its handle plus attribute / uniform name resolution
(`getAttribLocation` yields -1 when the name is absent, `getUniformLocation`
yields null). -/

structure Program where
  id : Nat
  attribs : List (String × Nat)
  uniforms : List (String × Nat)
deriving DecidableEq

/- A ShapeRecord: one vertex buffer, one index buffer, and an index count. -/

structure Shape where
  vertexBuffer : Nat
  indexBuffer : Nat
  indexCount : Nat
deriving DecidableEq

/- Environment-determined outcomes: DOM id lookup, shader compilation success
and its info log (a function of kind and source), and link success and its
info log (a function of the two sources). -/

structure GLEnv where
  getElementById : String → Option Canvas
  compileOk : Nat → String → Bool
  shaderInfoLog : Nat → String → String
  linkOk : String → String → Bool
  programInfoLog : String → String → String

/- A thrown JavaScript error: either a host TypeError (e.g. a method call on
null) or an `Error` the code constructs with `throw new Error(msg)`. -/

inductive JsError where
  | hostTypeError (msg : String)
  | thrown (msg : String)
deriving DecidableEq

/-! Transcription of the helper object `GLHelp` from src/glHelp.js.  Each
function mirrors its JS source line by line; JS default arguments are passed
explicitly at call sites. -/

namespace GLHelp

/- `getGLContext(canvasID)`: `document.getElementById` then
`canvas.getContext("webgl2")`; throws `Error` when the context is null.  When
the id names no element, the lookup yields null and the `getContext` method
call on null raises a host TypeError. -/
def getGLContext (env : GLEnv) (canvasID : String) : Except JsError GLState :=
  match env.getElementById canvasID with
  | none => Except.error (JsError.hostTypeError ("Cannot read properties of null"))
  | some c =>
    if c.webgl2Capable then
      Except.ok { canvas := c, arrayBufferBinding := none, elementArrayBufferBinding := none, nextId := 0 }
    else
      Except.error (JsError.thrown ("WebGL2 is not supported by your browser."))

/- `compileShader(gl, type, source)`: create, source, compile; on failure log
the diagnostic to the console, delete the shader, and return null. -/
def compileShader (env : GLEnv) (st : GLState) (ty : Nat) (source : String) :
    GLState × List GLCall × Option Nat :=
  let shader := st.nextId
  let st1 := { st with nextId := st.nextId + 1 }
  let t0 := [GLCall.createShader ty, GLCall.shaderSource shader source, GLCall.compileShaderCall shader]
  if env.compileOk ty source then
    (st1, t0, some shader)
  else
    let shaderType := if ty == VERTEX_SHADER then "VERTEX" else "FRAGMENT"
    (st1,
     t0 ++ [GLCall.consoleError (shaderType ++ " SHADER ERROR: " ++ env.shaderInfoLog ty source),
            GLCall.deleteShader shader],
     none)

/- `createProgram(gl, vertexSource, fragmentSource)`: compile both shaders,
attach, link; throw `Error` with the program info log when LINK_STATUS is
false.  `gl.attachShader(program, null)` records a GL error and attaches
nothing, and per GL semantics a program missing a compiled vertex or fragment
shader cannot link, so LINK_STATUS requires both compiles to have succeeded. -/
def createProgram (env : GLEnv) (st : GLState) (vertexSource fragmentSource : String) :
    GLState × List GLCall × Except String Nat :=
  let (st1, t1, vs) := compileShader env st VERTEX_SHADER vertexSource
  let (st2, t2, fs) := compileShader env st1 FRAGMENT_SHADER fragmentSource
  let program := st2.nextId
  let st3 := { st2 with nextId := st2.nextId + 1 }
  let ta := match vs with
    | some s => [GLCall.attachShader program s]
    | none => []
  let tb := match fs with
    | some s => [GLCall.attachShader program s]
    | none => []
  let trace := t1 ++ t2 ++ [GLCall.createProgramCall] ++ ta ++ tb ++ [GLCall.linkProgram program]
  if vs.isSome && fs.isSome && env.linkOk vertexSource fragmentSource then
    (st3, trace, Except.ok program)
  else
    (st3, trace,
     Except.error ("Program linking error: " ++ env.programInfoLog vertexSource fragmentSource))

/- `createBuffer(gl, data, usage = gl.STATIC_DRAW)`. -/
def createBuffer (st : GLState) (data : BufData) (usage : Nat) :
    GLState × List GLCall × Nat :=
  let buffer := st.nextId
  let st1 := { st with nextId := st.nextId + 1, arrayBufferBinding := some buffer }
  (st1,
   [GLCall.createBufferCall, GLCall.bindBuffer ARRAY_BUFFER (some buffer),
    GLCall.bufferData ARRAY_BUFFER data usage],
   buffer)

/- `setIndexBuffer(gl, data, usage = gl.STATIC_DRAW)`. -/
def setIndexBuffer (st : GLState) (data : BufData) (usage : Nat) :
    GLState × List GLCall × Nat :=
  let buffer := st.nextId
  let st1 := { st with nextId := st.nextId + 1, elementArrayBufferBinding := some buffer }
  (st1,
   [GLCall.createBufferCall, GLCall.bindBuffer ELEMENT_ARRAY_BUFFER (some buffer),
    GLCall.bufferData ELEMENT_ARRAY_BUFFER data usage],
   buffer)

/- `gl.getAttribLocation(program, name)`: the slot index, or -1 when `name`
is not an active attribute. -/
def getAttribLocation (p : Program) (name : String) : Int :=
  match p.attribs.lookup name with
  | some n => (n : Int)
  | none => -1

/- `gl.getUniformLocation(program, name)`: the location, or null. -/
def getUniformLocation (p : Program) (name : String) : Option Nat :=
  p.uniforms.lookup name

/- `setAttribute(gl, program, buffer, attributeName, size, type = gl.FLOAT,
stride = 0, offset = 0)`: resolve the location, bind the buffer, set the
pointer, enable the array.  The code never checks the resolved location. -/
def setAttribute (st : GLState) (p : Program) (buffer : Nat) (attributeName : String)
    (size ty stride off : Nat) : GLState × List GLCall :=
  let location := getAttribLocation p attributeName
  ({ st with arrayBufferBinding := some buffer },
   [GLCall.getAttribLocationCall p.id attributeName,
    GLCall.bindBuffer ARRAY_BUFFER (some buffer),
    GLCall.vertexAttribPointer location size ty false stride off,
    GLCall.enableVertexAttribArray location])

/- `setUniform(gl, program, uniformName, type, value)`: resolve the location,
then dispatch on the string tag; unknown tags throw.  The returned pair is
the trace and the thrown error message, if any. -/
def setUniform (p : Program) (uniformName ty : String) (value : UniformValue) :
    List GLCall × Option String :=
  let location := getUniformLocation p uniformName
  let t0 := [GLCall.getUniformLocationCall p.id uniformName]
  if ty == "1f" then (t0 ++ [GLCall.uniform1f location value], none)
  else if ty == "2fv" then (t0 ++ [GLCall.uniform2fv location value], none)
  else if ty == "3fv" then (t0 ++ [GLCall.uniform3fv location value], none)
  else if ty == "4fv" then (t0 ++ [GLCall.uniform4fv location value], none)
  else if ty == "mat4" then (t0 ++ [GLCall.uniformMatrix4fv location false value], none)
  else (t0, some ("Unsupported uniform type: " ++ ty))

/- `clear(gl, r = 0, g = 0, b = 0, a = 1)`. -/
def clear (r g b a : Rat) : List GLCall :=
  [GLCall.clearColor r g b a, GLCall.clearCall (COLOR_BUFFER_BIT ||| DEPTH_BUFFER_BIT)]

/- `draw(gl, mode, count, type = gl.UNSIGNED_SHORT)`: drawElements when an
element-array buffer is bound, drawArrays otherwise. -/
def draw (st : GLState) (mode count ty : Nat) : List GLCall :=
  if st.elementArrayBufferBinding.isSome then
    [GLCall.drawElements mode count ty 0]
  else
    [GLCall.drawArrays mode 0 count]

/- `resizeCanvas(gl)`: when the backing-store size differs from the display
size, update it and the viewport; otherwise do nothing. -/
def resizeCanvas (st : GLState) : GLState × List GLCall :=
  let c := st.canvas
  if c.width != c.clientWidth || c.height != c.clientHeight then
    let c1 := { c with width := c.clientWidth, height := c.clientHeight }
    ({ st with canvas := c1 },
     [GLCall.setCanvasWidth c.clientWidth, GLCall.setCanvasHeight c.clientHeight,
      GLCall.viewport 0 0 c1.width c1.height])
  else
    (st, [])

end GLHelp

/-! Transcription of the helper object `glHelp` from the unnamed utility
module (src/unnamed/part_000).  Its ten core operations are textually
identical to those of `GLHelp`; it additionally provides the frame drivers
`render` and `renderMultipleShapes`.  Each driver is modelled as one loop
iteration; the trailing `requestAnimationFrame(...)` hand-off to the host
scheduler is recorded as a trace event. -/

namespace glHelp

/- `getGLContext(canvasID)` — identical to GLHelp.getGLContext. -/
def getGLContext (env : GLEnv) (canvasID : String) : Except JsError GLState :=
  match env.getElementById canvasID with
  | none => Except.error (JsError.hostTypeError ("Cannot read properties of null"))
  | some c =>
    if c.webgl2Capable then
      Except.ok { canvas := c, arrayBufferBinding := none, elementArrayBufferBinding := none, nextId := 0 }
    else
      Except.error (JsError.thrown ("WebGL2 is not supported by your browser."))

/- `compileShader(gl, type, source)` — identical to GLHelp.compileShader. -/
def compileShader (env : GLEnv) (st : GLState) (ty : Nat) (source : String) :
    GLState × List GLCall × Option Nat :=
  let shader := st.nextId
  let st1 := { st with nextId := st.nextId + 1 }
  let t0 := [GLCall.createShader ty, GLCall.shaderSource shader source, GLCall.compileShaderCall shader]
  if env.compileOk ty source then
    (st1, t0, some shader)
  else
    let shaderType := if ty == VERTEX_SHADER then "VERTEX" else "FRAGMENT"
    (st1,
     t0 ++ [GLCall.consoleError (shaderType ++ " SHADER ERROR: " ++ env.shaderInfoLog ty source),
            GLCall.deleteShader shader],
     none)

/- `createProgram(gl, vertexSource, fragmentSource)` — identical to
GLHelp.createProgram. -/
def createProgram (env : GLEnv) (st : GLState) (vertexSource fragmentSource : String) :
    GLState × List GLCall × Except String Nat :=
  let (st1, t1, vs) := compileShader env st VERTEX_SHADER vertexSource
  let (st2, t2, fs) := compileShader env st1 FRAGMENT_SHADER fragmentSource
  let program := st2.nextId
  let st3 := { st2 with nextId := st2.nextId + 1 }
  let ta := match vs with
    | some s => [GLCall.attachShader program s]
    | none => []
  let tb := match fs with
    | some s => [GLCall.attachShader program s]
    | none => []
  let trace := t1 ++ t2 ++ [GLCall.createProgramCall] ++ ta ++ tb ++ [GLCall.linkProgram program]
  if vs.isSome && fs.isSome && env.linkOk vertexSource fragmentSource then
    (st3, trace, Except.ok program)
  else
    (st3, trace,
     Except.error ("Program linking error: " ++ env.programInfoLog vertexSource fragmentSource))

/- `createBuffer(gl, data, usage = gl.STATIC_DRAW)` — identical to
GLHelp.createBuffer. -/
def createBuffer (st : GLState) (data : BufData) (usage : Nat) :
    GLState × List GLCall × Nat :=
  let buffer := st.nextId
  let st1 := { st with nextId := st.nextId + 1, arrayBufferBinding := some buffer }
  (st1,
   [GLCall.createBufferCall, GLCall.bindBuffer ARRAY_BUFFER (some buffer),
    GLCall.bufferData ARRAY_BUFFER data usage],
   buffer)

/- `setIndexBuffer(gl, data, usage = gl.STATIC_DRAW)` — identical to
GLHelp.setIndexBuffer. -/
def setIndexBuffer (st : GLState) (data : BufData) (usage : Nat) :
    GLState × List GLCall × Nat :=
  let buffer := st.nextId
  let st1 := { st with nextId := st.nextId + 1, elementArrayBufferBinding := some buffer }
  (st1,
   [GLCall.createBufferCall, GLCall.bindBuffer ELEMENT_ARRAY_BUFFER (some buffer),
    GLCall.bufferData ELEMENT_ARRAY_BUFFER data usage],
   buffer)

/- `setAttribute(...)` — identical to GLHelp.setAttribute. -/
def setAttribute (st : GLState) (p : Program) (buffer : Nat) (attributeName : String)
    (size ty stride off : Nat) : GLState × List GLCall :=
  let location := GLHelp.getAttribLocation p attributeName
  ({ st with arrayBufferBinding := some buffer },
   [GLCall.getAttribLocationCall p.id attributeName,
    GLCall.bindBuffer ARRAY_BUFFER (some buffer),
    GLCall.vertexAttribPointer location size ty false stride off,
    GLCall.enableVertexAttribArray location])

/- `setUniform(...)` — identical to GLHelp.setUniform. -/
def setUniform (p : Program) (uniformName ty : String) (value : UniformValue) :
    List GLCall × Option String :=
  let location := GLHelp.getUniformLocation p uniformName
  let t0 := [GLCall.getUniformLocationCall p.id uniformName]
  if ty == "1f" then (t0 ++ [GLCall.uniform1f location value], none)
  else if ty == "2fv" then (t0 ++ [GLCall.uniform2fv location value], none)
  else if ty == "3fv" then (t0 ++ [GLCall.uniform3fv location value], none)
  else if ty == "4fv" then (t0 ++ [GLCall.uniform4fv location value], none)
  else if ty == "mat4" then (t0 ++ [GLCall.uniformMatrix4fv location false value], none)
  else (t0, some ("Unsupported uniform type: " ++ ty))

/- `clear(gl, r = 0, g = 0, b = 0, a = 1)` — identical to GLHelp.clear. -/
def clear (r g b a : Rat) : List GLCall :=
  [GLCall.clearColor r g b a, GLCall.clearCall (COLOR_BUFFER_BIT ||| DEPTH_BUFFER_BIT)]

/- `draw(gl, mode, count, type = gl.UNSIGNED_SHORT)` — identical to
GLHelp.draw. -/
def draw (st : GLState) (mode count ty : Nat) : List GLCall :=
  if st.elementArrayBufferBinding.isSome then
    [GLCall.drawElements mode count ty 0]
  else
    [GLCall.drawArrays mode 0 count]

/- `resizeCanvas(gl)` — identical to GLHelp.resizeCanvas. -/
def resizeCanvas (st : GLState) : GLState × List GLCall :=
  let c := st.canvas
  if c.width != c.clientWidth || c.height != c.clientHeight then
    let c1 := { c with width := c.clientWidth, height := c.clientHeight }
    ({ st with canvas := c1 },
     [GLCall.setCanvasWidth c.clientWidth, GLCall.setCanvasHeight c.clientHeight,
      GLCall.viewport 0 0 c1.width c1.height])
  else
    (st, [])

/- One iteration of `render(gl, program, vertexBuffer, indexBuffer,
indexCount, mode = gl.TRIANGLES)`: resize, clear to the dark background,
useProgram, bind the vertex attribute, bind the index buffer, draw, then
schedule the next iteration. -/
def render (st : GLState) (p : Program) (vertexBuffer indexBuffer indexCount mode : Nat) :
    GLState × List GLCall :=
  let (st1, t1) := resizeCanvas st
  let t2 := clear (1/10) (1/10) (1/10) 1
  let t3 := [GLCall.useProgram p.id]
  let (st2, t4) := setAttribute st1 p vertexBuffer ("a_position") 2 GL_FLOAT 0 0
  let st3 := { st2 with elementArrayBufferBinding := some indexBuffer }
  let t5 := [GLCall.bindBuffer ELEMENT_ARRAY_BUFFER (some indexBuffer)]
  let t6 := draw st3 mode indexCount UNSIGNED_SHORT
  (st3, t1 ++ t2 ++ t3 ++ t4 ++ t5 ++ t6 ++ [GLCall.requestAnimationFrame])

/- The `for (let shape of shapes)` body of `renderMultipleShapes`, threading
the state through the sequence of shapes. -/
def renderShapesLoop (p : Program) : GLState → List Shape → GLState × List GLCall
  | st, [] => (st, [])
  | st, s :: rest =>
    let (st1, t1) := setAttribute st p s.vertexBuffer ("a_position") 2 GL_FLOAT 0 0
    let st2 := { st1 with elementArrayBufferBinding := some s.indexBuffer }
    let t2 := [GLCall.bindBuffer ELEMENT_ARRAY_BUFFER (some s.indexBuffer)]
    let t3 := draw st2 TRIANGLES s.indexCount UNSIGNED_SHORT
    let (st3, t4) := renderShapesLoop p st2 rest
    (st3, t1 ++ t2 ++ t3 ++ t4)

/- One iteration of `renderMultipleShapes(gl, program, shapes)`: resize,
clear to the dark background, useProgram, the per-shape loop, then schedule
the next iteration. -/
def renderMultipleShapes (st : GLState) (p : Program) (shapes : List Shape) :
    GLState × List GLCall :=
  let (st1, t1) := resizeCanvas st
  let t2 := clear (1/10) (1/10) (1/10) 1
  let t3 := [GLCall.useProgram p.id]
  let (st2, t4) := renderShapesLoop p st1 shapes
  (st2, t1 ++ t2 ++ t3 ++ t4 ++ [GLCall.requestAnimationFrame])

end glHelp

/-! Transcription of src/main.js: `create2DGrid` uploads the 2x2 grid
geometry, and `render` is the demo frame loop (one iteration).  main.js calls
the helper module through its `WebGLUtils` import; the helper surface is the
one shared by both copies (see the extensional-equality theorem below), so
the `GLHelp` transcription is used here. -/

/- The record `{ vertexBuffer, indexBuffer, indexCount }` returned by
`create2DGrid`. -/
structure Grid where
  vertexBuffer : Nat
  indexBuffer : Nat
  indexCount : Nat
deriving DecidableEq

namespace Main

/- `create2DGrid(gl)`: upload the four grid corners and the six indices of
the two triangles. -/
def create2DGrid (st : GLState) : GLState × List GLCall × Grid :=
  let gridVertices : List Rat := [-1, -1, 1, -1, -1, 1, 1, 1]
  let (st1, t1, vertexBuffer) := GLHelp.createBuffer st (BufData.f32 gridVertices) STATIC_DRAW
  let indices : List Nat := [0, 1, 2, 1, 3, 2]
  let (st2, t2, indexBuffer) := GLHelp.setIndexBuffer st1 (BufData.u16 indices) STATIC_DRAW
  (st2, t1 ++ t2, { vertexBuffer := vertexBuffer, indexBuffer := indexBuffer, indexCount := indices.length })

/- One iteration of main.js `render()`: clear to the dark background,
useProgram, bind the vertex attribute, bind the index buffer, draw, then
schedule the next iteration. -/
def render (st : GLState) (p : Program) (g : Grid) : GLState × List GLCall :=
  let t1 := GLHelp.clear (1/10) (1/10) (1/10) 1
  let t2 := [GLCall.useProgram p.id]
  let (st1, t3) := GLHelp.setAttribute st p g.vertexBuffer ("a_position") 2 GL_FLOAT 0 0
  let st2 := { st1 with elementArrayBufferBinding := some g.indexBuffer }
  let t4 := [GLCall.bindBuffer ELEMENT_ARRAY_BUFFER (some g.indexBuffer)]
  let t5 := GLHelp.draw st2 TRIANGLES g.indexCount UNSIGNED_SHORT
  (st2, t1 ++ t2 ++ t3 ++ t4 ++ t5 ++ [GLCall.requestAnimationFrame])

end Main

/-! Spec-side definitions used to state the claims. -/

/- Recognizer for the buffer-clearing call. -/
def isClearCall : GLCall → Bool
  | GLCall.clearCall _ => true
  | _ => false

/- Recognizer for program activation. -/
def isUseProgram : GLCall → Bool
  | GLCall.useProgram _ => true
  | _ => false

/- Recognizer for a draw call of either kind. -/
def isDrawCall : GLCall → Bool
  | GLCall.drawElements _ _ _ _ => true
  | GLCall.drawArrays _ _ _ => true
  | _ => false

/- Recognizer for the host-scheduler hand-off. -/
def isSchedule : GLCall → Bool
  | GLCall.requestAnimationFrame => true
  | _ => false

/- The calls one `resizeCanvas` performs, as a function of the canvas alone:
nothing when the backing size already matches the display size, otherwise the
two size writes and the viewport update. -/
def resizeTraceSpec (c : Canvas) : List GLCall :=
  if c.width != c.clientWidth || c.height != c.clientHeight then
    [GLCall.setCanvasWidth c.clientWidth, GLCall.setCanvasHeight c.clientHeight,
     GLCall.viewport 0 0 c.clientWidth c.clientHeight]
  else []

/- The calls §4.7 prescribes for one ShapeRecord: bind its vertex buffer to
`a_position` with component count 2, bind its index buffer, and issue an
indexed triangle draw for its index count. -/
def expectedShapeTrace (p : Program) (s : Shape) : List GLCall :=
  [GLCall.getAttribLocationCall p.id ("a_position"),
   GLCall.bindBuffer ARRAY_BUFFER (some s.vertexBuffer),
   GLCall.vertexAttribPointer (GLHelp.getAttribLocation p ("a_position")) 2 GL_FLOAT false 0 0,
   GLCall.enableVertexAttribArray (GLHelp.getAttribLocation p ("a_position")),
   GLCall.bindBuffer ELEMENT_ARRAY_BUFFER (some s.indexBuffer),
   GLCall.drawElements TRIANGLES s.indexCount UNSIGNED_SHORT 0]

/- The §4.7 per-shape calls, concatenated over a sequence of ShapeRecords. -/
def shapesTraceSpec (p : Program) : List Shape → List GLCall
  | [] => []
  | s :: rest => expectedShapeTrace p s ++ shapesTraceSpec p rest

/- Concrete fixtures for witnesses and counterexamples. -/

def cv0 : Canvas :=
  { width := 800, height := 600, clientWidth := 800, clientHeight := 600, webgl2Capable := true }

def cvNoGL : Canvas :=
  { width := 300, height := 150, clientWidth := 300, clientHeight := 150, webgl2Capable := false }

def st0 : GLState :=
  { canvas := cv0, arrayBufferBinding := none, elementArrayBufferBinding := none, nextId := 10 }

def stIdx : GLState :=
  { canvas := cv0, arrayBufferBinding := none, elementArrayBufferBinding := some 5, nextId := 9 }

def p0 : Program :=
  { id := 1, attribs := [("a_position", 0)], uniforms := [("u_time", 0)] }

def envEmpty : GLEnv :=
  { getElementById := fun _ => none, compileOk := fun _ _ => true,
    shaderInfoLog := fun _ _ => "", linkOk := fun _ _ => true,
    programInfoLog := fun _ _ => "" }

def envNoGL : GLEnv :=
  { getElementById := fun _ => some cvNoGL, compileOk := fun _ _ => true,
    shaderInfoLog := fun _ _ => "", linkOk := fun _ _ => true,
    programInfoLog := fun _ _ => "" }

def envBadVS : GLEnv :=
  { getElementById := fun _ => some cv0, compileOk := fun _ _ => false,
    shaderInfoLog := fun _ _ => "syntax error", linkOk := fun _ _ => true,
    programInfoLog := fun _ _ => "missing shader" }

/-! Claim theorems. -/

/-- Claim C10: the helper object `GLHelp` of src/glHelp.js and the helper
object `glHelp` of the unnamed utility module are extensionally equal on
their ten shared operations: for every input each produces the same result
and the same sequence of graphics calls. -/
theorem helpers_extensionally_equal :
    GLHelp.getGLContext = glHelp.getGLContext ∧
    GLHelp.createProgram = glHelp.createProgram ∧
    GLHelp.compileShader = glHelp.compileShader ∧
    GLHelp.createBuffer = glHelp.createBuffer ∧
    GLHelp.setIndexBuffer = glHelp.setIndexBuffer ∧
    GLHelp.setAttribute = glHelp.setAttribute ∧
    GLHelp.setUniform = glHelp.setUniform ∧
    GLHelp.clear = glHelp.clear ∧
    GLHelp.draw = glHelp.draw ∧
    GLHelp.resizeCanvas = glHelp.resizeCanvas :=
  ⟨rfl, rfl, rfl, rfl, rfl, rfl, rfl, rfl, rfl, rfl⟩

/-- Claim C9: for every mode, count, index type and context state, `draw`
issues `drawElements` with offset 0 and the given index type exactly when an
element-array buffer is bound at call time, and otherwise issues `drawArrays`
starting at vertex 0 with the same count. -/
theorem draw_indexed_iff_element_binding (st : GLState) (mode count ty : Nat) :
    (GLHelp.draw st mode count ty = [GLCall.drawElements mode count ty 0] ↔
      st.elementArrayBufferBinding.isSome = true) ∧
    (st.elementArrayBufferBinding = none →
      GLHelp.draw st mode count ty = [GLCall.drawArrays mode 0 count]) := by
  unfold GLHelp.draw
  constructor
  · constructor
    · intro h
      by_cases hb : st.elementArrayBufferBinding.isSome = true
      · exact hb
      · simp [hb] at h
    · intro hb
      simp [hb]
  · intro hn
    simp [hn]

/-- Witness for C9: with an element-array buffer bound, `draw` issues exactly
the indexed draw; with none bound, exactly the non-indexed draw. -/
theorem draw_indexed_iff_element_binding_witness :
    GLHelp.draw stIdx TRIANGLES 6 UNSIGNED_SHORT = [GLCall.drawElements TRIANGLES 6 UNSIGNED_SHORT 0] ∧
    GLHelp.draw st0 TRIANGLES 6 UNSIGNED_SHORT = [GLCall.drawArrays TRIANGLES 0 6] :=
  ⟨(draw_indexed_iff_element_binding stIdx TRIANGLES 6 UNSIGNED_SHORT).1.mpr rfl,
   (draw_indexed_iff_element_binding st0 TRIANGLES 6 UNSIGNED_SHORT).2 rfl⟩

/-- Claim C7: `resizeCanvas` is idempotent with respect to the viewport: for
every canvas state, a second call with an unchanged display size leaves the
state as it is and performs no canvas-size or viewport mutation. -/
theorem resizeCanvas_idempotent (st : GLState) :
    GLHelp.resizeCanvas (GLHelp.resizeCanvas st).1 = ((GLHelp.resizeCanvas st).1, []) := by
  unfold GLHelp.resizeCanvas
  by_cases h : (st.canvas.width != st.canvas.clientWidth || st.canvas.height != st.canvas.clientHeight) = true
  · simp [h]
  · simp [h]

/-- Claim C2: `setUniform` dispatches each of the five recognized tags to
exactly the matching write operation, and for every other tag it fails with
the unsupported-uniform-kind error having performed no uniform write (only
the location lookup). -/
theorem setUniform_dispatch (p : Program) (name : String) (v : UniformValue) :
    (∀ ty : String, ty ∉ (["1f", "2fv", "3fv", "4fv", "mat4"] : List String) →
      GLHelp.setUniform p name ty v =
        ([GLCall.getUniformLocationCall p.id name],
         some ("Unsupported uniform type: " ++ ty))) ∧
    GLHelp.setUniform p name ("1f") v =
      ([GLCall.getUniformLocationCall p.id name,
        GLCall.uniform1f (GLHelp.getUniformLocation p name) v], none) ∧
    GLHelp.setUniform p name ("2fv") v =
      ([GLCall.getUniformLocationCall p.id name,
        GLCall.uniform2fv (GLHelp.getUniformLocation p name) v], none) ∧
    GLHelp.setUniform p name ("3fv") v =
      ([GLCall.getUniformLocationCall p.id name,
        GLCall.uniform3fv (GLHelp.getUniformLocation p name) v], none) ∧
    GLHelp.setUniform p name ("4fv") v =
      ([GLCall.getUniformLocationCall p.id name,
        GLCall.uniform4fv (GLHelp.getUniformLocation p name) v], none) ∧
    GLHelp.setUniform p name ("mat4") v =
      ([GLCall.getUniformLocationCall p.id name,
        GLCall.uniformMatrix4fv (GLHelp.getUniformLocation p name) false v], none) := by
  refine ⟨?_, rfl, rfl, rfl, rfl, rfl⟩
  intro ty hty
  simp only [List.mem_cons, List.not_mem_nil, or_false, not_or] at hty
  obtain ⟨h1, h2, h3, h4, h5⟩ := hty
  simp only [GLHelp.setUniform, beq_iff_eq]
  rw [if_neg h1, if_neg h2, if_neg h3, if_neg h4, if_neg h5]

/-- Witness for C2: the unrecognized tag "bogus" yields the error and only
the location lookup in the trace. -/
theorem setUniform_dispatch_witness :
    GLHelp.setUniform p0 ("u_time") ("bogus") (UniformValue.num 0) =
      ([GLCall.getUniformLocationCall 1 ("u_time")],
       some ("Unsupported uniform type: " ++ "bogus")) :=
  (setUniform_dispatch p0 ("u_time") (UniformValue.num 0)).1 ("bogus") (by decide)

/-- Claim C3 counterexample: on a program whose attributes are exactly
{a_position}, calling `setAttribute` with the absent name "a_missing" does
not fail with AttributeNotFound; it completes normally and silently
configures the sentinel slot -1 (pointer set and array enabled at -1). -/
theorem setAttribute_missing_counterexample :
    (GLHelp.setAttribute st0 p0 7 ("a_missing") 2 GL_FLOAT 0 0).2 =
      [GLCall.getAttribLocationCall 1 ("a_missing"),
       GLCall.bindBuffer ARRAY_BUFFER (some 7),
       GLCall.vertexAttribPointer (-1) 2 GL_FLOAT false 0 0,
       GLCall.enableVertexAttribArray (-1)] ∧
    (GLHelp.setAttribute st0 p0 7 ("a_missing") 2 GL_FLOAT 0 0).1 =
      { st0 with arrayBufferBinding := some 7 } := by
  constructor <;> rfl

/-- Claim C3 amended: for every program and attribute name not present on it,
`setAttribute` does not fail; it resolves the implementation-defined "not
found" sentinel -1 and silently configures it — it binds the buffer, sets the
vertex pointer at location -1 and enables the array at location -1. -/
theorem setAttribute_missing_configures_sentinel (st : GLState) (p : Program)
    (buffer : Nat) (name : String) (size ty stride off : Nat)
    (h : p.attribs.lookup name = none) :
    (GLHelp.setAttribute st p buffer name size ty stride off).2 =
      [GLCall.getAttribLocationCall p.id name,
       GLCall.bindBuffer ARRAY_BUFFER (some buffer),
       GLCall.vertexAttribPointer (-1) size ty false stride off,
       GLCall.enableVertexAttribArray (-1)] ∧
    (GLHelp.setAttribute st p buffer name size ty stride off).1 =
      { st with arrayBufferBinding := some buffer } := by
  unfold GLHelp.setAttribute GLHelp.getAttribLocation
  rw [h]
  exact ⟨rfl, rfl⟩

/-- Witness for the amended C3: the absent name "a_color" is silently
configured at slot -1. -/
theorem setAttribute_missing_configures_sentinel_witness :
    (GLHelp.setAttribute st0 p0 7 ("a_color") 2 GL_FLOAT 0 0).2 =
      [GLCall.getAttribLocationCall p0.id ("a_color"),
       GLCall.bindBuffer ARRAY_BUFFER (some 7),
       GLCall.vertexAttribPointer (-1) 2 GL_FLOAT false 0 0,
       GLCall.enableVertexAttribArray (-1)] :=
  (setAttribute_missing_configures_sentinel st0 p0 7 ("a_color") 2 GL_FLOAT 0 0 (by decide)).1

/-- Claim C4 counterexample: for an identifier naming no existing surface,
`getGLContext` fails with the host null-access TypeError, not with the
ContextUnavailable error ("WebGL2 is not supported by your browser."). -/
theorem getGLContext_missing_counterexample :
    GLHelp.getGLContext envEmpty ("nosuch") =
      Except.error (JsError.hostTypeError ("Cannot read properties of null")) ∧
    GLHelp.getGLContext envEmpty ("nosuch") ≠
      Except.error (JsError.thrown ("WebGL2 is not supported by your browser.")) := by
  refine ⟨rfl, ?_⟩
  simp [GLHelp.getGLContext, envEmpty]

/-- Claim C4 amended: `getGLContext` returns an error (and hence no context
on which further graphics calls could be made) whenever the environment
cannot provide a 3D-capable surface, but the error kind differs by case: a
missing identifier fails with a host null-access TypeError, while a surface
that exists but provides no webgl2 context fails with the ContextUnavailable
error "WebGL2 is not supported by your browser.". -/
theorem getGLContext_failure_modes (env : GLEnv) (canvasID : String) :
    (env.getElementById canvasID = none →
      GLHelp.getGLContext env canvasID =
        Except.error (JsError.hostTypeError ("Cannot read properties of null"))) ∧
    (∀ c : Canvas, env.getElementById canvasID = some c → c.webgl2Capable = false →
      GLHelp.getGLContext env canvasID =
        Except.error (JsError.thrown ("WebGL2 is not supported by your browser."))) := by
  constructor
  · intro h
    unfold GLHelp.getGLContext
    rw [h]
  · intro c hc hcap
    unfold GLHelp.getGLContext
    rw [hc]
    simp [hcap]

/-- Witness for the amended C4: both failure modes at concrete
environments. -/
theorem getGLContext_failure_modes_witness :
    GLHelp.getGLContext envEmpty ("c1") =
      Except.error (JsError.hostTypeError ("Cannot read properties of null")) ∧
    GLHelp.getGLContext envNoGL ("c2") =
      Except.error (JsError.thrown ("WebGL2 is not supported by your browser.")) :=
  ⟨(getGLContext_failure_modes envEmpty ("c1")).1 rfl,
   (getGLContext_failure_modes envNoGL ("c2")).2 cvNoGL rfl rfl⟩

/-- Claim C1: for every shader pair in which at least one shader fails to
compile, `createProgram` surfaces the failure to its caller by throwing an
error and never returns a usable program: the missing shader is never
attached, the program cannot reach LINK_STATUS true, and the link check
throws. -/
theorem createProgram_fails_on_compile_failure (env : GLEnv) (st : GLState)
    (vertexSource fragmentSource : String)
    (h : env.compileOk VERTEX_SHADER vertexSource = false ∨
         env.compileOk FRAGMENT_SHADER fragmentSource = false) :
    ∃ msg : String,
      (GLHelp.createProgram env st vertexSource fragmentSource).2.2 = Except.error msg := by
  refine ⟨"Program linking error: " ++ env.programInfoLog vertexSource fragmentSource, ?_⟩
  unfold GLHelp.createProgram GLHelp.compileShader
  rcases h with h | h
  · simp [h]
  · cases hv : env.compileOk VERTEX_SHADER vertexSource <;> simp [h, hv]

/-- Witness for C1: with an environment in which compilation always fails,
`createProgram` returns an error. -/
theorem createProgram_fails_on_compile_failure_witness :
    ∃ msg : String,
      (GLHelp.createProgram envBadVS st0 ("vs-src") ("fs-src")).2.2 = Except.error msg :=
  createProgram_fails_on_compile_failure envBadVS st0 ("vs-src") ("fs-src") (Or.inl rfl)

/-! Trace characterization lemmas shared by the frame-driver claims. -/

/- One `resizeCanvas` call emits exactly the calls `resizeTraceSpec` names. -/
theorem resizeCanvas_trace (st : GLState) :
    (glHelp.resizeCanvas st).2 = resizeTraceSpec st.canvas := by
  unfold glHelp.resizeCanvas resizeTraceSpec
  by_cases h : (st.canvas.width != st.canvas.clientWidth ||
      st.canvas.height != st.canvas.clientHeight) = true
  · simp [h]
  · simp [h]

/- The per-shape loop emits exactly the §4.7 per-shape calls, for every
starting state. -/
theorem renderShapesLoop_trace (p : Program) (shapes : List Shape) :
    ∀ st : GLState, (glHelp.renderShapesLoop p st shapes).2 = shapesTraceSpec p shapes := by
  induction shapes with
  | nil => intro st; rfl
  | cons s rest ih =>
    intro st
    simp [glHelp.renderShapesLoop, glHelp.setAttribute, glHelp.draw, shapesTraceSpec,
          expectedShapeTrace, ih]

/- The full trace of one `renderMultipleShapes` iteration. -/
theorem renderMultipleShapes_trace (st : GLState) (p : Program) (shapes : List Shape) :
    (glHelp.renderMultipleShapes st p shapes).2 =
      resizeTraceSpec st.canvas ++
      [GLCall.clearColor (1/10) (1/10) (1/10) 1,
       GLCall.clearCall (COLOR_BUFFER_BIT ||| DEPTH_BUFFER_BIT)] ++
      [GLCall.useProgram p.id] ++
      shapesTraceSpec p shapes ++
      [GLCall.requestAnimationFrame] := by
  unfold glHelp.renderMultipleShapes
  rcases hres : glHelp.resizeCanvas st with ⟨st1, t1⟩
  have h1 : t1 = resizeTraceSpec st.canvas := by
    have h := resizeCanvas_trace st
    rw [hres] at h
    exact h
  rcases hloop : glHelp.renderShapesLoop p st1 shapes with ⟨st2, t4⟩
  have h4 : t4 = shapesTraceSpec p shapes := by
    have h := renderShapesLoop_trace p shapes st1
    rw [hloop] at h
    exact h
  simp [glHelp.clear, h1, h4, hloop]

/- The full trace of one `render` iteration. -/
theorem render_trace (st : GLState) (p : Program)
    (vertexBuffer indexBuffer indexCount mode : Nat) :
    (glHelp.render st p vertexBuffer indexBuffer indexCount mode).2 =
      resizeTraceSpec st.canvas ++
      [GLCall.clearColor (1/10) (1/10) (1/10) 1,
       GLCall.clearCall (COLOR_BUFFER_BIT ||| DEPTH_BUFFER_BIT)] ++
      [GLCall.useProgram p.id] ++
      [GLCall.getAttribLocationCall p.id ("a_position"),
       GLCall.bindBuffer ARRAY_BUFFER (some vertexBuffer),
       GLCall.vertexAttribPointer (GLHelp.getAttribLocation p ("a_position")) 2 GL_FLOAT false 0 0,
       GLCall.enableVertexAttribArray (GLHelp.getAttribLocation p ("a_position"))] ++
      [GLCall.bindBuffer ELEMENT_ARRAY_BUFFER (some indexBuffer)] ++
      [GLCall.drawElements mode indexCount UNSIGNED_SHORT 0] ++
      [GLCall.requestAnimationFrame] := by
  unfold glHelp.render
  rcases hres : glHelp.resizeCanvas st with ⟨st1, t1⟩
  have h1 : t1 = resizeTraceSpec st.canvas := by
    have h := resizeCanvas_trace st
    rw [hres] at h
    exact h
  simp [glHelp.clear, glHelp.setAttribute, glHelp.draw, h1]

/- Neither the resize calls nor the per-shape calls contain a scheduler
hand-off. -/
theorem resizeTraceSpec_no_sched (c : Canvas) :
    (resizeTraceSpec c).countP isSchedule = 0 := by
  unfold resizeTraceSpec
  by_cases h : (c.width != c.clientWidth || c.height != c.clientHeight) = true
  · simp [h, isSchedule]
  · simp [h]

theorem shapesTraceSpec_no_sched (p : Program) (shapes : List Shape) :
    (shapesTraceSpec p shapes).countP isSchedule = 0 := by
  induction shapes with
  | nil => rfl
  | cons s rest ih =>
    simp [shapesTraceSpec, expectedShapeTrace, isSchedule, List.countP_append,
          List.countP_cons, ih]

/-- Claim C6: one iteration of `renderMultipleShapes` performs, in order:
the resize-if-changed calls, the clear of color and depth buffers to the
fixed dark background (0.1, 0.1, 0.1, 1), program activation, then for each
ShapeRecord in sequence the binding of its vertex buffer to `a_position`
with component count 2, the binding of its index buffer, and an indexed
triangle draw for its index count. -/
theorem renderMultipleShapes_frame (st : GLState) (p : Program) (shapes : List Shape) :
    (glHelp.renderMultipleShapes st p shapes).2 =
      resizeTraceSpec st.canvas ++
      [GLCall.clearColor (1/10) (1/10) (1/10) 1,
       GLCall.clearCall (COLOR_BUFFER_BIT ||| DEPTH_BUFFER_BIT)] ++
      [GLCall.useProgram p.id] ++
      shapesTraceSpec p shapes ++
      [GLCall.requestAnimationFrame] :=
  renderMultipleShapes_trace st p shapes

/-- Claim C8: every iteration of the looping frame drivers `render` and
`renderMultipleShapes` ends by scheduling exactly one subsequent invocation
(one `requestAnimationFrame`, unconditionally, as the last call); no code
path skips the reschedule. -/
theorem frame_drivers_reschedule_once (st st2 : GLState) (p p2 : Program)
    (vertexBuffer indexBuffer indexCount mode : Nat) (shapes : List Shape) :
    ((glHelp.render st p vertexBuffer indexBuffer indexCount mode).2.countP isSchedule = 1 ∧
     (glHelp.render st p vertexBuffer indexBuffer indexCount mode).2.getLast? =
       some GLCall.requestAnimationFrame) ∧
    ((glHelp.renderMultipleShapes st2 p2 shapes).2.countP isSchedule = 1 ∧
     (glHelp.renderMultipleShapes st2 p2 shapes).2.getLast? =
       some GLCall.requestAnimationFrame) := by
  refine ⟨⟨?_, ?_⟩, ?_, ?_⟩
  · rw [render_trace]
    simp [List.countP_append, List.countP_cons, isSchedule, resizeTraceSpec_no_sched]
  · rw [render_trace]
    exact List.getLast?_concat _
  · rw [renderMultipleShapes_trace]
    simp [List.countP_append, List.countP_cons, isSchedule, resizeTraceSpec_no_sched,
          shapesTraceSpec_no_sched]
  · rw [renderMultipleShapes_trace]
    exact List.getLast?_concat _

/-- Claim C5: after uploading the vertex array [-1,-1, 1,-1, -1,1, 1,1] and
the index array [0,1,2,1,3,2] via `create2DGrid`, one iteration of the
main.js `render` function performs exactly one clear, exactly one
`useProgram`, and exactly one draw call — an indexed draw with count 6. -/
theorem render_round_trip (st : GLState) (p : Program) :
    ((Main.render (Main.create2DGrid st).1 p (Main.create2DGrid st).2.2).2.countP isClearCall = 1) ∧
    ((Main.render (Main.create2DGrid st).1 p (Main.create2DGrid st).2.2).2.countP isUseProgram = 1) ∧
    ((Main.render (Main.create2DGrid st).1 p (Main.create2DGrid st).2.2).2.filter isDrawCall =
      [GLCall.drawElements TRIANGLES 6 UNSIGNED_SHORT 0]) := by
  refine ⟨?_, ?_, ?_⟩ <;>
    simp [Main.render, Main.create2DGrid, GLHelp.createBuffer, GLHelp.setIndexBuffer,
          GLHelp.clear, GLHelp.setAttribute, GLHelp.draw,
          isClearCall, isUseProgram, isDrawCall,
          List.countP_cons, List.countP_nil, List.filter]
